import Mathlib

/-!
Shallow embedding of the Knoter trading engine core (backend/app), used to
check the natural-language specification against the code.

Conventions:
* Python floats are modelled as exact rationals (`ℚ`).
* Python `round(x, 4)` (round-half-to-even to 4 decimal places) is `round4`.
* Python `datetime` values are modelled as rational timestamps in seconds;
  `(now - opened_at).total_seconds()` becomes plain subtraction.
* Python dictionaries with optional keys become structures of `Option` fields.
* Free-text audit strings (the `rationale` fields, log messages) are not
  modelled: per the spec they are "used for audit, not for control flow".
-/

namespace Knoter

/-- Python `round` to an integer: round half to even (banker's rounding). -/
def pyRoundInt (x : ℚ) : ℤ :=
  let n := ⌊x⌋
  let frac := x - n
  if frac > 1/2 then n + 1
  else if frac < 1/2 then n
  else if n % 2 = 0 then n else n + 1

/-- Python `round(x, 4)`. -/
def round4 (x : ℚ) : ℚ := (pyRoundInt (x * 10000) : ℚ) / 10000

/-! ## strategy/engine.py -/

/-- `compute_pnl_pct` from `strategy/engine.py` (lines 35-39). -/
def compute_pnl_pct (entry_price current_price : ℚ) (side : String) : ℚ :=
  if entry_price ≤ 0 then 0
  else
    let raw := (current_price - entry_price) / entry_price * 100
    if side = "yes" then raw else -raw

/-- `EntryConfig` from `models.py` (the fields the embedded code reads).
`momentum_window`, `order_ttl_seconds` and `max_replacements` are `PositiveInt`
in the source (pydantic validates them to be at least 1). -/
structure EntryConfig where
  momentum_window : ℕ
  momentum_threshold_pct : ℚ
  entry_edge_pct : ℚ
  fee_pct : ℚ
  order_ttl_seconds : ℕ
  max_replacements : ℕ
deriving DecidableEq

/-- `ExitConfig` from `models.py`. -/
structure ExitConfig where
  take_profit_pct : ℚ
  stop_loss_pct : ℚ
  max_hold_seconds : ℚ
  close_before_resolution_minutes : ℚ
  trail_start_pct : ℚ
  trail_gap_pct : ℚ
  close_slippage_pct : ℚ
  max_close_requotes : ℕ
deriving DecidableEq

/-- `TradeSizing` from `models.py`; `order_size` is a `PositiveInt`. -/
structure TradeSizing where
  order_size : ℤ
deriving DecidableEq

/-- `BotConfig` from `models.py` (the sub-configs the embedded code reads). -/
structure BotConfig where
  entry : EntryConfig
  exit : ExitConfig
  trade_sizing : TradeSizing
deriving DecidableEq

/-- `EntryDecision` dataclass from `strategy/engine.py` (without the free-text
`rationale` audit string). -/
structure EntryDecision where
  action : String
  side : Option String
  price : Option ℚ
  expected_edge_pct : ℚ
  reason_code : String
deriving DecidableEq

/-- `decide_entry` from `strategy/engine.py` (lines 42-87).  `prices` is the
deque of mid prices; the slice `list(prices)[-momentum_window:]` is
`List.drop (length - momentum_window)` (they agree because `momentum_window`
is a `PositiveInt` and, in the branch where the slice is taken, is at most
the length).  The unused `risk_reason` parameter fed the dropped rationale. -/
def decide_entry (prices : List ℚ) (yes_bid yes_ask no_bid no_ask : ℚ)
    (config : BotConfig) (risk_allows : Bool) (risk_reason : String)
    (in_cooldown : Bool) (expected_edge_cost_pct : ℚ) : EntryDecision :=
  let _ := yes_bid
  let _ := risk_reason
  if in_cooldown then ⟨"SKIP", none, none, 0, "SKIP_COOLDOWN"⟩
  else if ¬risk_allows then ⟨"SKIP", none, none, 0, "SKIP_RISK"⟩
  else if prices.length < config.entry.momentum_window then
    ⟨"SKIP", none, none, 0, "SKIP_HISTORY"⟩
  else
    let recent_prices := prices.drop (prices.length - config.entry.momentum_window)
    let avg_price := recent_prices.sum / recent_prices.length
    let mid_now := recent_prices.getLastD 0
    let momentum_pct := (mid_now - avg_price) / max avg_price (1/1000) * 100
    if |momentum_pct| ≤ config.entry.momentum_threshold_pct then
      ⟨"SKIP", none, none, 0, "SKIP_MOMENTUM"⟩
    else
      let side := if momentum_pct > 0 then "yes" else "no"
      let expected_edge_pct := |momentum_pct| - expected_edge_cost_pct
      if expected_edge_pct ≤ 0 then
        ⟨"SKIP", none, none, expected_edge_pct, "SKIP_EDGE"⟩
      else
        let edge_base := if side = "yes" then mid_now else max 0 (min 1 (1 - mid_now))
        let edge := edge_base * (config.entry.entry_edge_pct / 100)
        if side = "yes" then
          let price := min yes_ask (mid_now - edge)
          let price := max (1/100) (min price (99/100))
          ⟨"ENTER", some side, some (round4 price), expected_edge_pct, "ENTER_LONG"⟩
        else
          let mid_no := edge_base
          if no_bid ≤ 0 ∨ no_ask ≤ 0 then
            ⟨"SKIP", none, none, 0, "SKIP_NO_QUOTE"⟩
          else
            let price := min no_ask (mid_no - edge)
            let price := max (1/100) (min price (99/100))
            ⟨"ENTER", some side, some (round4 price), expected_edge_pct, "ENTER_SHORT"⟩

/-- `ExitDecision` dataclass from `strategy/engine.py` (without `rationale`). -/
structure ExitDecision where
  action : String
  price : Option ℚ
  reason_code : String
deriving DecidableEq

/-- Python's `trailing_stop_pct or -100.0` in `decide_exit`: both `None` and
`0.0` are falsy. -/
def trail_prev : Option ℚ → ℚ
  | none => -100
  | some t => if t = 0 then -100 else t

/-- `decide_exit` from `strategy/engine.py` (lines 90-127).  `opened_at` and
`now` are timestamps in seconds. -/
def decide_exit (entry_price current_price : ℚ) (side : String)
    (opened_at now : ℚ) (config : ExitConfig) (peak_pnl_pct : ℚ)
    (trailing_stop_pct : Option ℚ) (time_to_resolution_minutes : ℚ)
    (bid ask : ℚ) : ExitDecision × ℚ × Option ℚ :=
  let pnl_pct := compute_pnl_pct entry_price current_price side
  let holding_time := now - opened_at
  let new_peak := max peak_pnl_pct pnl_pct
  let trail_stop := trailing_stop_pct
  if pnl_pct ≥ config.take_profit_pct then
    (⟨"TAKE_PROFIT", some (round4 (if side = "yes" then bid else ask)), "EXIT_TP"⟩,
      new_peak, trail_stop)
  else if pnl_pct ≤ -config.stop_loss_pct then
    (⟨"STOP_LOSS", some (round4 (if side = "yes" then bid else ask)), "EXIT_SL"⟩,
      new_peak, trail_stop)
  else if holding_time ≥ config.max_hold_seconds then
    (⟨"TIME_EXIT", some (round4 (if side = "yes" then bid else ask)), "EXIT_TIME"⟩,
      new_peak, trail_stop)
  else if time_to_resolution_minutes ≤ config.close_before_resolution_minutes then
    (⟨"LATE_EXIT", some (round4 (if side = "yes" then bid else ask)), "EXIT_LATE"⟩,
      new_peak, trail_stop)
  else if pnl_pct ≥ config.trail_start_pct then
    let trail_stop := max (trail_prev trailing_stop_pct) (new_peak - config.trail_gap_pct)
    if pnl_pct ≤ trail_stop then
      (⟨"TRAIL_STOP", some (round4 (if side = "yes" then bid else ask)), "EXIT_TRAIL"⟩,
        new_peak, some trail_stop)
    else
      (⟨"HOLD", none, "HOLD"⟩, new_peak, some trail_stop)
  else
    (⟨"HOLD", none, "HOLD"⟩, new_peak, trail_stop)

/-! ## strategy/pnl.py -/

/-- A venue fill record as consumed by `compute_realized_pnl_pct`
(`strategy/pnl.py` lines 9-42).  The function reads the dictionary keys
`market_id`, `side`, `action`, `qty`/`size`/`count` and `price`; each is
modelled as an `Option` field (`none` = key absent or value `None`). -/
structure Fill where
  market_id : Option String
  side : Option String
  action : Option String
  qty : Option ℚ
  size : Option ℚ
  count : Option ℚ
  price : Option ℚ
deriving DecidableEq

/-- Python `a or b` on optional numbers: `a` unless it is `None` or `0`. -/
def or_falsy (a b : Option ℚ) : Option ℚ :=
  match a with
  | none => b
  | some x => if x = 0 then b else some x

/-- `fill.get("qty") or fill.get("size") or fill.get("count")`. -/
def fill_qty_resolved (f : Fill) : Option ℚ :=
  or_falsy f.qty (or_falsy f.size f.count)

/-- Python truthiness of an optional string (`None` and `""` are falsy). -/
def truthy_str : Option String → Bool
  | none => false
  | some s => !(s == "")

/-- One `(market_id, side)` entry of the `inventory` dictionary in
`compute_realized_pnl_pct`: `{"qty": ..., "avg": ...}`. -/
structure InvEntry where
  qty : ℚ
  avg : ℚ
deriving DecidableEq

/-- The loop state of `compute_realized_pnl_pct`: the inventory dictionary
(modelled as a total map with `setdefault` default `{qty := 0, avg := 0}`)
plus the two accumulators. -/
structure RealizedAcc where
  inv : String × String → InvEntry
  realized_weighted : ℚ
  realized_qty : ℚ

/-- The body of the `for fill in fills` loop of `compute_realized_pnl_pct`. -/
def process_fill (acc : RealizedAcc) (fill : Fill) : RealizedAcc :=
  if ¬truthy_str fill.market_id ∨ ¬truthy_str fill.side ∨ ¬truthy_str fill.action
      ∨ fill_qty_resolved fill = none ∨ fill.price = none then acc
  else
    let market_id := fill.market_id.getD ""
    let side := fill.side.getD ""
    let key := (market_id, side)
    let position := acc.inv key
    let qty := (fill_qty_resolved fill).getD 0
    let price := fill.price.getD 0
    if fill.action = some "buy" then
      let new_qty := position.qty + qty
      let avg := if new_qty > 0 then
          (position.avg * position.qty + price * qty) / new_qty
        else position.avg
      { acc with inv := fun k => if k = key then ⟨new_qty, avg⟩ else acc.inv k }
    else if fill.action = some "sell" then
      let matched := min position.qty qty
      let acc1 :=
        if matched > 0 then
          { acc with
            realized_weighted :=
              acc.realized_weighted + compute_pnl_pct position.avg price side * matched,
            realized_qty := acc.realized_qty + matched,
            inv := fun k => if k = key then ⟨position.qty - matched, position.avg⟩
              else acc.inv k }
        else acc
      if qty > matched then
        { acc1 with inv := fun k => if k = key then ⟨0, price⟩ else acc1.inv k }
      else acc1
    else acc

/-- `compute_realized_pnl_pct` from `strategy/pnl.py` (lines 9-42). -/
def compute_realized_pnl_pct (fills : List Fill) : ℚ :=
  let acc := fills.foldl process_fill ⟨fun _ => ⟨0, 0⟩, 0, 0⟩
  if acc.realized_qty = 0 then 0
  else round4 (acc.realized_weighted / acc.realized_qty)

/-! ## risk.py -/

/-- `RiskLimits` from `models.py`. -/
structure RiskLimits where
  max_exposure_contracts : ℤ
  max_exposure_dollars : ℚ
  max_concurrent_positions : ℤ
  max_trades_per_event : ℤ
  max_consecutive_losses : ℤ
  max_event_loss_pct : ℚ
  max_session_loss_pct : ℚ
  cooldown_after_trade_seconds : ℚ
  kill_switch : Bool
deriving DecidableEq

/-- `RiskState` from `risk.py` (lines 10-19); `last_trade_time` is a
timestamp in seconds. -/
structure RiskState where
  consecutive_losses : ℤ
  event_pnl_pct : ℚ
  session_pnl_pct : ℚ
  exposure_contracts : ℤ
  exposure_dollars : ℚ
  active_positions : ℤ
  trade_history : List ℚ
  last_trade_time : Option ℚ
deriving DecidableEq

/-- `RiskManager.record_trade` from `risk.py` (lines 27-35); `now` is the
current timestamp. -/
def record_trade (st : RiskState) (pnl_pct : ℚ) (now : ℚ) : RiskState :=
  { st with
    trade_history := st.trade_history ++ [pnl_pct],
    session_pnl_pct := st.session_pnl_pct + pnl_pct,
    event_pnl_pct := st.event_pnl_pct + pnl_pct,
    consecutive_losses := if pnl_pct < 0 then st.consecutive_losses + 1 else 0,
    last_trade_time := some now }

/-- `RiskManager.in_cooldown` from `risk.py` (lines 52-56). -/
def in_cooldown (limits : RiskLimits) (st : RiskState) (now : ℚ) : Bool :=
  match st.last_trade_time with
  | none => false
  | some t => now - t < limits.cooldown_after_trade_seconds

/-- `RiskManager.can_trade` from `risk.py` (lines 58-75). -/
def can_trade (limits : RiskLimits) (st : RiskState) (now : ℚ) : Bool × String :=
  if limits.kill_switch then (false, "Kill switch active")
  else if st.exposure_contracts ≥ limits.max_exposure_contracts then
    (false, "Exposure contracts limit reached")
  else if st.exposure_dollars ≥ limits.max_exposure_dollars then
    (false, "Exposure dollars limit reached")
  else if st.active_positions ≥ limits.max_concurrent_positions then
    (false, "Max concurrent positions reached")
  else if st.consecutive_losses ≥ limits.max_consecutive_losses then
    (false, "Loss streak limit reached")
  else if |st.event_pnl_pct| ≥ limits.max_event_loss_pct then
    (false, "Event loss cap reached")
  else if |st.session_pnl_pct| ≥ limits.max_session_loss_pct then
    (false, "Session loss cap reached")
  else if in_cooldown limits st now then (false, "Cooldown active")
  else (true, "Ok")

/-- Specification-side helper: the `can_trade` checks as an ordered list of
`(failed?, reason)` pairs, in source order. -/
def can_trade_checks (limits : RiskLimits) (st : RiskState) (now : ℚ) :
    List (Bool × String) :=
  [ (limits.kill_switch, "Kill switch active"),
    (decide (st.exposure_contracts ≥ limits.max_exposure_contracts),
      "Exposure contracts limit reached"),
    (decide (st.exposure_dollars ≥ limits.max_exposure_dollars),
      "Exposure dollars limit reached"),
    (decide (st.active_positions ≥ limits.max_concurrent_positions),
      "Max concurrent positions reached"),
    (decide (st.consecutive_losses ≥ limits.max_consecutive_losses),
      "Loss streak limit reached"),
    (decide (|st.event_pnl_pct| ≥ limits.max_event_loss_pct),
      "Event loss cap reached"),
    (decide (|st.session_pnl_pct| ≥ limits.max_session_loss_pct),
      "Session loss cap reached"),
    (in_cooldown limits st now, "Cooldown active") ]

/-- Specification-side helper: the reason of the first failing check, or the
allow result when none fails. -/
def first_failing : List (Bool × String) → Bool × String
  | [] => (true, "Ok")
  | (failed, reason) :: rest => if failed then (false, reason) else first_failing rest

/-! ## market_data.py -/

/-- The frozen `Quote` dataclass from `market_data.py` (lines 23-34).
Note: it has fields `yes_bid`/`yes_ask`/..., and no `bid` or `ask` attribute. -/
structure Quote where
  ticker : String
  yes_bid : Option ℚ
  yes_ask : Option ℚ
  no_bid : Option ℚ
  no_ask : Option ℚ
  mid_yes : Option ℚ
  spread_yes_pct : Option ℚ
  ts_ms : Option ℤ
  valid : Bool
  reason_if_invalid : Option String
deriving DecidableEq

/-- The inner `_clamp` of `_normalize_quote_values`: the possibly clamped
value and whether clamping occurred. -/
def clamp01 (value : Option ℚ) : Option ℚ × Bool :=
  match value with
  | none => (none, false)
  | some x => if x < 0 ∨ x > 1 then (some (max 0 (min 1 x)), true) else (some x, false)

/-- `_normalize_quote_values` from `market_data.py` (lines 149-200). -/
def normalize_quote_values (ticker : String)
    (yes_bid yes_ask no_bid no_ask mid_yes : Option ℚ)
    (ts_ms : Option ℤ) (reason : Option String) : Quote :=
  let yes_bid_c := clamp01 yes_bid
  let yes_ask_c := clamp01 yes_ask
  let no_bid_c := clamp01 no_bid
  let no_ask_c := clamp01 no_ask
  let mid_yes_c := clamp01 mid_yes
  let invalid_reasons : List String :=
    (if yes_bid_c.1 = none ∨ yes_ask_c.1 = none then ["missing_bid_ask"] else []) ++
    (if yes_bid_c.2 ∨ yes_ask_c.2 ∨ no_bid_c.2 ∨ no_ask_c.2 ∨ mid_yes_c.2 then
      ["out_of_range"] else []) ++
    (match yes_bid_c.1, yes_ask_c.1 with
      | some b, some a => if a < b then ["inverted_spread"] else []
      | _, _ => [])
  let mid_yes : Option ℚ := match mid_yes_c.1, yes_bid_c.1, yes_ask_c.1 with
    | none, some b, some a => some ((b + a) / 2)
    | m, _, _ => m
  let spread_yes_pct : Option ℚ := match mid_yes, yes_bid_c.1, yes_ask_c.1 with
    | some m, some b, some a =>
        if m > 0 then some ((a - b) / max m (1/10000) * 100) else none
    | _, _, _ => none
  { ticker := ticker
    yes_bid := yes_bid_c.1.map round4
    yes_ask := yes_ask_c.1.map round4
    no_bid := no_bid_c.1.map round4
    no_ask := no_ask_c.1.map round4
    mid_yes := mid_yes.map round4
    spread_yes_pct := spread_yes_pct.map round4
    ts_ms := ts_ms
    valid := invalid_reasons.isEmpty
    reason_if_invalid :=
      match reason with
      | some r => if r = "" then invalid_reasons.head? else some r
      | none => invalid_reasons.head? }

/-- A value stored under a key of a venue payload dictionary: a
`float()`-convertible value (numbers, numeric strings, booleans), a
non-numeric string, or `None`. -/
inductive PValue
  | num (q : ℚ)
  | str (s : String)
  | null
deriving DecidableEq

/-- A venue payload dictionary (association list; first binding wins, as in a
Python dict each key appears at most once). -/
abbrev Payload := List (String × PValue)

/-- `payload.get(key)`. -/
def payload_get (p : Payload) (key : String) : Option PValue :=
  (p.find? (fun kv => kv.1 == key)).map (·.2)

/-- `_first_present` from `market_data.py` (lines 120-127): the first key
whose value is present, non-`None` and `float()`-convertible.  A non-numeric
string raises `ValueError` inside the `try` and the loop continues. -/
def first_present (p : Payload) : List String → Option ℚ
  | [] => none
  | key :: rest =>
    match payload_get p key with
    | some (.num q) => some q
    | _ => first_present p rest

/-- `_extract_price` from `market_data.py` (lines 130-137): dollars keys win;
cents keys are divided by 100.  The `Bool` is the legacy-cents flag. -/
def extract_price (p : Payload) (dollars_keys cents_keys : List String) :
    Option ℚ × Bool :=
  match first_present p dollars_keys with
  | some dollars => (some dollars, false)
  | none =>
    match first_present p cents_keys with
    | none => (none, false)
    | some cents => (some (cents / 100), true)

/-- Python truthiness of an optional payload value. -/
def truthy_pv : Option PValue → Bool
  | some (.num q) => !(q == 0)
  | some (.str s) => !(s == "")
  | _ => false

/-- Rendering of a payload value used for the `ticker` field (only ever
reached on truthy values; the claims do not depend on the ticker). -/
def pv_render : PValue → String
  | .num q => toString q
  | .str s => s
  | .null => ""

/-- `payload.get("ticker") or payload.get("market_ticker") or
payload.get("market_id") or ""`. -/
def ticker_of (p : Payload) : String :=
  if truthy_pv (payload_get p "ticker") then pv_render ((payload_get p "ticker").getD .null)
  else if truthy_pv (payload_get p "market_ticker") then
    pv_render ((payload_get p "market_ticker").getD .null)
  else if truthy_pv (payload_get p "market_id") then
    pv_render ((payload_get p "market_id").getD .null)
  else ""

/-- Python `int()` truncation toward zero on a rational. -/
def pyInt (x : ℚ) : ℤ := if x ≥ 0 then ⌊x⌋ else ⌈x⌉

/-- `_normalize_timestamp` from `market_data.py` (lines 140-146). -/
def normalize_timestamp (ts : Option ℚ) : Option ℤ :=
  match ts with
  | none => none
  | some value => some (pyInt (if value > 10^12 then value / 1000 else value))

/-- `normalize_quote` from `market_data.py` (lines 203-254). -/
def normalize_quote (p : Payload) : Quote :=
  let ticker := ticker_of p
  let yes_bid := (extract_price p
    ["yes_bid_dollars", "bid_dollars", "yes_bid_price_dollars"]
    ["yes_bid", "bid", "yes_bid_price"]).1
  let yes_ask := (extract_price p
    ["yes_ask_dollars", "ask_dollars", "yes_ask_price_dollars"]
    ["yes_ask", "ask", "yes_ask_price"]).1
  let no_bid := (extract_price p
    ["no_bid_dollars", "no_bid_price_dollars"]
    ["no_bid", "no_bid_price"]).1
  let no_ask := (extract_price p
    ["no_ask_dollars", "no_ask_price_dollars"]
    ["no_ask", "no_ask_price"]).1
  let mid_yes := (extract_price p
    ["mid_price_dollars", "mid_dollars", "yes_mid_dollars"]
    ["mid_price", "yes_mid"]).1
  let ts_ms := normalize_timestamp
    (first_present p ["last_updated_ts", "ts", "timestamp", "last_price_time"])
  let ts_ms := match ts_ms with
    | some t => some (if t < 10^12 then t * 1000 else t)
    | none => none
  let no_bid := match no_bid, yes_ask with
    | none, some a => some (round4 (1 - a))
    | v, _ => v
  let no_ask := match no_ask, yes_bid with
    | none, some b => some (round4 (1 - b))
    | v, _ => v
  normalize_quote_values ticker yes_bid yes_ask no_bid no_ask mid_yes ts_ms none

/-! ## execution_engine/order_manager.py -/

/-- The dictionary returned by `broker.place_order` as read by
`OrderManager.place_with_ttl` (`response.get(...)`): each consulted key as an
`Option` field. -/
structure PlaceOrderResponse where
  order_id : Option String
  status : Option String
  filled_qty : Option ℤ
  avg_fill_price : Option ℚ
deriving DecidableEq

/-- `OrderResult` dataclass from `execution_engine/order_manager.py`. -/
structure OrderResult where
  order_id : String
  status : String
  filled_qty : ℤ
  avg_fill_price : Option ℚ
deriving DecidableEq

/-- `int(response.get("filled_qty", 0) or 0)`: absent, `None` and `0` all
yield `0`. -/
def parsed_filled (resp : PlaceOrderResponse) : ℤ := resp.filled_qty.getD 0

/-- Observable outcome of a `place_with_ttl` run: `result = none` models an
uncaught `AttributeError` escaping the call; `cancelled` is the sequence of
order ids passed to `broker.cancel_order`; `filled_log` the quantities passed
to `log_fill`. -/
structure TtlRun where
  result : Option OrderResult
  cancelled : List String
  filled_log : List ℤ
deriving DecidableEq

/-- Python's `if quote and quote.valid` in `place_with_ttl`: a refreshed
quote is truthy (dataclass instances always are) and valid. -/
def quote_is_valid : Option Quote → Bool
  | some q => q.valid
  | none => false

/-- The `for attempt in range(max_replacements + 1)` loop of
`OrderManager.place_with_ttl` (`order_manager.py` lines 72-115).
`broker i` is the response of `broker.place_order` on attempt `i`; `quotes i`
is what `_refresh_quote` yields on attempt `i` (`none` when the broker has no
usable snapshot or raised).  `fuel` is the number of attempts left.

When a refreshed quote is truthy and `valid`, the source executes
`price = min(price, quote.ask)` (resp. `max(price, quote.bid)`); the
`market_data.Quote` dataclass has no attribute `ask` or `bid`, so this raises
`AttributeError`, which no handler in `place_with_ttl` catches: the run
aborts with the cancellations issued so far. -/
def place_with_ttl_go (broker : ℕ → PlaceOrderResponse) (quotes : ℕ → Option Quote) :
    (fuel attempt : ℕ) → (remaining : ℤ) → (last : OrderResult) →
    (cancelled : List String) → (filled_log : List ℤ) → TtlRun
  | 0, _, _, last, cancelled, filled_log => ⟨some last, cancelled, filled_log⟩
  | fuel + 1, attempt, remaining, _, cancelled, filled_log =>
    if quote_is_valid (quotes attempt) then ⟨none, cancelled, filled_log⟩
    else
      let resp := broker attempt
      let order_id := resp.order_id.getD ""
      let status := resp.status.getD "open"
      let filled_qty := parsed_filled resp
      let last : OrderResult := ⟨order_id, status, filled_qty, resp.avg_fill_price⟩
      if filled_qty ≠ 0 then
        let filled_log := filled_log ++ [filled_qty]
        let remaining := max (remaining - filled_qty) 0
        if remaining = 0 then
          (⟨some ⟨order_id, "filled", filled_qty, resp.avg_fill_price⟩,
            cancelled, filled_log⟩ : TtlRun)
        else
          place_with_ttl_go broker quotes fuel (attempt + 1) remaining last
            (cancelled ++ [order_id]) filled_log
      else
        place_with_ttl_go broker quotes fuel (attempt + 1) remaining last
          (cancelled ++ [order_id]) filled_log

/-- `OrderManager.place_with_ttl` (`order_manager.py` lines 66-116): runs the
attempt loop starting from the configured order size, with the initial
`order_id = ""`, `status = "open"`, `filled_qty = 0`, `avg_fill_price = None`. -/
def place_with_ttl (config : BotConfig) (broker : ℕ → PlaceOrderResponse)
    (quotes : ℕ → Option Quote) : TtlRun :=
  place_with_ttl_go broker quotes (config.entry.max_replacements + 1) 0
    config.trade_sizing.order_size ⟨"", "open", 0, none⟩ [] []

/-- Specification-side predicate: the attempt loop exhausts all `fuel`
attempts starting at `attempt` with `remaining` quantity (no attempt brings
the remaining quantity to zero). -/
def ttl_exhausts (broker : ℕ → PlaceOrderResponse) :
    (fuel attempt : ℕ) → (remaining : ℤ) → Bool
  | 0, _, _ => true
  | fuel + 1, attempt, remaining =>
    let filled_qty := parsed_filled (broker attempt)
    if filled_qty = 0 then ttl_exhausts broker fuel (attempt + 1) remaining
    else
      decide (max (remaining - filled_qty) 0 ≠ 0) &&
        ttl_exhausts broker fuel (attempt + 1) (max (remaining - filled_qty) 0)

/-! ## bot.py -/

/-- The operations one iteration of `run_bot`'s `while state.running` loop
performs (`bot.py` lines 379-394), as named step labels. -/
inductive TickStep
  | handle_kill_switch
  | scan_markets
  | update_positions
  | maybe_open_trade
  | reconcile_broker_state
  | publish_scan
  | publish_positions
  | publish_status
  | publish_activity
  | sleep_cadence
deriving DecidableEq, Repr

/-- The straight-line order of one `run_bot` loop iteration, read off
`bot.py` lines 383-394.  `scan_markets` scores/scans markets,
`update_positions` evaluates exits for open positions, `maybe_open_trade`
evaluates entries, `reconcile_broker_state` reconciles broker state. -/
def run_bot_tick_steps : List TickStep :=
  [ .handle_kill_switch,
    .scan_markets,
    .update_positions,
    .maybe_open_trade,
    .reconcile_broker_state,
    .publish_scan,
    .publish_positions,
    .publish_status,
    .publish_activity,
    .sleep_cadence ]

/-! ## Shared concrete values -/

/-- The default `BotConfig` of `models.py` (defaults of the embedded fields). -/
def default_config : BotConfig :=
  { entry :=
      { momentum_window := 6
        momentum_threshold_pct := 3/5
        entry_edge_pct := 3/10
        fee_pct := 1/10
        order_ttl_seconds := 30
        max_replacements := 2 }
    exit :=
      { take_profit_pct := 4
        stop_loss_pct := 3
        max_hold_seconds := 900
        close_before_resolution_minutes := 60
        trail_start_pct := 2
        trail_gap_pct := 1
        close_slippage_pct := 2/5
        max_close_requotes := 2 }
    trade_sizing := { order_size := 1 } }

/-- Generous `RiskLimits` used in witnesses: no limit is near except the one
under test. -/
def lenient_limits : RiskLimits :=
  { max_exposure_contracts := 100
    max_exposure_dollars := 1000
    max_concurrent_positions := 10
    max_trades_per_event := 100
    max_consecutive_losses := 10
    max_event_loss_pct := 5
    max_session_loss_pct := 8
    cooldown_after_trade_seconds := 20
    kill_switch := false }

/-- A `RiskState` with zeroed counters. -/
def base_risk_state : RiskState :=
  { consecutive_losses := 0
    event_pnl_pct := 0
    session_pnl_pct := 0
    exposure_contracts := 0
    exposure_dollars := 0
    active_positions := 0
    trade_history := []
    last_trade_time := none }

/-! ## C3 — engine loop step order -/

/-- C3 counterexample: the claim says each engine-loop iteration reconciles
broker state first and then scans/scores markets; in `run_bot` the
reconciliation step sits at index 4 of the iteration, after the scan step at
index 1, so reconciliation does not come first. -/
theorem run_bot_reconcile_not_first :
    run_bot_tick_steps.indexOf .reconcile_broker_state = 4 ∧
    run_bot_tick_steps.indexOf .scan_markets = 1 ∧
    ¬ run_bot_tick_steps.indexOf .reconcile_broker_state <
        run_bot_tick_steps.indexOf .scan_markets := by
  decide

/-- C3 (amended): each `run_bot` loop iteration performs its work in the
fixed order score/scan markets, then evaluate exits for open positions, then
evaluate entries, then reconcile broker state, then publish state. -/
theorem run_bot_tick_order :
    run_bot_tick_steps.indexOf .scan_markets <
      run_bot_tick_steps.indexOf .update_positions ∧
    run_bot_tick_steps.indexOf .update_positions <
      run_bot_tick_steps.indexOf .maybe_open_trade ∧
    run_bot_tick_steps.indexOf .maybe_open_trade <
      run_bot_tick_steps.indexOf .reconcile_broker_state ∧
    run_bot_tick_steps.indexOf .reconcile_broker_state <
      run_bot_tick_steps.indexOf .publish_scan ∧
    run_bot_tick_steps.indexOf .publish_scan <
      run_bot_tick_steps.indexOf .publish_positions ∧
    run_bot_tick_steps.indexOf .publish_positions <
      run_bot_tick_steps.indexOf .publish_status ∧
    run_bot_tick_steps.indexOf .publish_status <
      run_bot_tick_steps.indexOf .publish_activity := by
  decide

/-! ## C4 — insufficient history -/

/-- C4 counterexample: with a price history shorter than the momentum window
but the cooldown flag set, `decide_entry` returns `SKIP_COOLDOWN`, not
`SKIP_HISTORY` — the history check is not independent of the other inputs. -/
theorem decide_entry_cooldown_shadows_history :
    ([] : List ℚ).length < default_config.entry.momentum_window ∧
    (decide_entry [] (49/100) (51/100) (49/100) (51/100) default_config
        true "Ok" true (1/5)).reason_code = "SKIP_COOLDOWN" ∧
    (decide_entry [] (49/100) (51/100) (49/100) (51/100) default_config
        true "Ok" true (1/5)).reason_code ≠ "SKIP_HISTORY" := by
  decide

/-- C4 (amended): when the cooldown flag is clear and risk allows, every price
history shorter than the momentum window makes `decide_entry` return SKIP
with reason code `SKIP_HISTORY`, regardless of the quote and cost inputs. -/
theorem decide_entry_skip_history (prices : List ℚ) (yes_bid yes_ask no_bid no_ask : ℚ)
    (config : BotConfig) (risk_reason : String) (expected_edge_cost_pct : ℚ)
    (h : prices.length < config.entry.momentum_window) :
    decide_entry prices yes_bid yes_ask no_bid no_ask config true risk_reason
        false expected_edge_cost_pct =
      ⟨"SKIP", none, none, 0, "SKIP_HISTORY"⟩ := by
  unfold decide_entry
  simp [h]

/-- C4 witness: the amended theorem applied at an empty history with the
default configuration. -/
theorem decide_entry_skip_history_witness :
    decide_entry [] (49/100) (51/100) (49/100) (51/100) default_config
        true "Ok" false (1/5) =
      ⟨"SKIP", none, none, 0, "SKIP_HISTORY"⟩ :=
  decide_entry_skip_history [] (49/100) (51/100) (49/100) (51/100)
    default_config "Ok" (1/5) (by decide)

/-! ## C6 — peak PnL is non-decreasing -/

/-- C6: the peak-PnL value `decide_exit` returns is always at least the
peak value passed in, for every input. -/
theorem decide_exit_peak_monotone (entry_price current_price : ℚ) (side : String)
    (opened_at now : ℚ) (config : ExitConfig) (peak_pnl_pct : ℚ)
    (trailing_stop_pct : Option ℚ) (time_to_resolution_minutes : ℚ)
    (bid ask : ℚ) :
    peak_pnl_pct ≤ (decide_exit entry_price current_price side opened_at now
      config peak_pnl_pct trailing_stop_pct time_to_resolution_minutes
      bid ask).2.1 := by
  unfold decide_exit
  dsimp only
  split_ifs <;> simp [le_max_left]

/-! ## C8 — risk check order -/

/-- C8: `can_trade` returns exactly the reason of the first failing limit in
the order kill-switch, exposure contracts, exposure dollars, concurrent
positions, consecutive losses, event loss, session loss, cooldown — or the
allow result when none fails. -/
theorem can_trade_first_failing (limits : RiskLimits) (st : RiskState) (now : ℚ) :
    can_trade limits st now = first_failing (can_trade_checks limits st now) := by
  simp only [can_trade, can_trade_checks, first_failing, decide_eq_true_eq]

/-! ## C10 — loss caps act on the absolute PnL -/

/-- C10: the event-loss and session-loss caps compare the absolute value of
the accumulated PnL: whenever `|event_pnl_pct|` (resp. `|session_pnl_pct|`)
reaches its cap, `can_trade` denies trading, and when no earlier limit fails
the denial carries the corresponding loss-cap reason — so a cumulative gain
of that magnitude blocks trading exactly as a loss does. -/
theorem can_trade_abs_loss_caps (limits : RiskLimits) (st : RiskState) (now : ℚ) :
    (|st.event_pnl_pct| ≥ limits.max_event_loss_pct →
      (can_trade limits st now).1 = false) ∧
    (|st.session_pnl_pct| ≥ limits.max_session_loss_pct →
      (can_trade limits st now).1 = false) ∧
    (limits.kill_switch = false →
      st.exposure_contracts < limits.max_exposure_contracts →
      st.exposure_dollars < limits.max_exposure_dollars →
      st.active_positions < limits.max_concurrent_positions →
      st.consecutive_losses < limits.max_consecutive_losses →
      |st.event_pnl_pct| ≥ limits.max_event_loss_pct →
      can_trade limits st now = (false, "Event loss cap reached")) ∧
    (limits.kill_switch = false →
      st.exposure_contracts < limits.max_exposure_contracts →
      st.exposure_dollars < limits.max_exposure_dollars →
      st.active_positions < limits.max_concurrent_positions →
      st.consecutive_losses < limits.max_consecutive_losses →
      |st.event_pnl_pct| < limits.max_event_loss_pct →
      |st.session_pnl_pct| ≥ limits.max_session_loss_pct →
      can_trade limits st now = (false, "Session loss cap reached")) := by
  refine ⟨?_, ?_, ?_, ?_⟩ <;> intros <;> unfold can_trade <;>
    split_ifs <;> simp_all <;> linarith

/-- C10 witness: a cumulative *gain* of 5% hits the 5% event cap and a gain
of 8% hits the 8% session cap, with every earlier limit clear. -/
theorem can_trade_abs_loss_caps_witness :
    can_trade lenient_limits { base_risk_state with event_pnl_pct := 5 } 0 =
      (false, "Event loss cap reached") ∧
    can_trade lenient_limits { base_risk_state with session_pnl_pct := 8 } 0 =
      (false, "Session loss cap reached") := by
  constructor
  · exact (can_trade_abs_loss_caps lenient_limits
      { base_risk_state with event_pnl_pct := 5 } 0).2.2.1
      rfl (by decide) (by decide) (by decide) (by decide)
      (by norm_num [lenient_limits, base_risk_state])
  · exact (can_trade_abs_loss_caps lenient_limits
      { base_risk_state with session_pnl_pct := 8 } 0).2.2.2
      rfl (by decide) (by decide) (by decide) (by decide)
      (by norm_num [lenient_limits, base_risk_state])
      (by norm_num [lenient_limits, base_risk_state])

/-! ## C5 — trailing stop -/

/-- C5 counterexample: a position whose PnL once reached 10% (so
`peak_pnl_pct = 10 ≥ trail_start_pct = 2`) with a recorded trailing stop of
8% and current PnL of 1% — below the trailing stop and below
`trail_start_pct`.  The claim demands TRAIL_STOP; `decide_exit` returns HOLD
and leaves the trailing stop untouched, because the trailing branch only runs
when the *current* PnL is at or above `trail_start_pct`. -/
theorem decide_exit_trailing_skipped_below_start :
    compute_pnl_pct (1/2) (101/200) "yes" = 1 ∧
    default_config.exit.trail_start_pct ≤ (10 : ℚ) ∧
    (1 : ℚ) ≤ max 8 (10 - default_config.exit.trail_gap_pct) ∧
    (decide_exit (1/2) (101/200) "yes" 0 60 default_config.exit 10 (some 8)
      120 (1/2) (51/100)).1.action = "HOLD" ∧
    (decide_exit (1/2) (101/200) "yes" 0 60 default_config.exit 10 (some 8)
      120 (1/2) (51/100)).1.action ≠ "TRAIL_STOP" ∧
    (decide_exit (1/2) (101/200) "yes" 0 60 default_config.exit 10 (some 8)
      120 (1/2) (51/100)).2.2 = some 8 := by
  have h : decide_exit (1/2) (101/200) "yes" 0 60 default_config.exit 10 (some 8)
      120 (1/2) (51/100) = (⟨"HOLD", none, "HOLD"⟩, 10, some 8) := by
    norm_num [decide_exit, compute_pnl_pct, default_config, max_def, trail_prev]
  refine ⟨by norm_num [compute_pnl_pct], by norm_num [default_config],
    by norm_num [default_config, max_def], by rw [h], by rw [h]; decide, by rw [h]⟩

/-- C5 (amended): the trailing logic runs only when the *current* `pnl_pct`
is at or above `trail_start_pct`.  In that case, when no higher-priority exit
fires, the trailing stop is maintained as
`max (previous trail stop) (peak - trail_gap_pct)` (a previous stop of
`None` or `0.0` counting as `-100`), and if the current `pnl_pct` is at or
below that stop the decision is TRAIL_STOP; when the current `pnl_pct` is
below `trail_start_pct` the decision is HOLD and the trailing state is left
unchanged, even if the peak had reached `trail_start_pct` before. -/
theorem decide_exit_trail_stop (entry_price current_price : ℚ) (side : String)
    (opened_at now : ℚ) (config : ExitConfig) (peak_pnl_pct : ℚ)
    (trailing_stop_pct : Option ℚ) (time_to_resolution_minutes : ℚ) (bid ask : ℚ)
    (h_tp : compute_pnl_pct entry_price current_price side < config.take_profit_pct)
    (h_sl : -config.stop_loss_pct < compute_pnl_pct entry_price current_price side)
    (h_hold : now - opened_at < config.max_hold_seconds)
    (h_late : config.close_before_resolution_minutes < time_to_resolution_minutes) :
    (config.trail_start_pct ≤ compute_pnl_pct entry_price current_price side →
      compute_pnl_pct entry_price current_price side ≤
        max (trail_prev trailing_stop_pct)
          (max peak_pnl_pct (compute_pnl_pct entry_price current_price side) -
            config.trail_gap_pct) →
      decide_exit entry_price current_price side opened_at now config
          peak_pnl_pct trailing_stop_pct time_to_resolution_minutes bid ask =
        (⟨"TRAIL_STOP", some (round4 (if side = "yes" then bid else ask)), "EXIT_TRAIL"⟩,
          max peak_pnl_pct (compute_pnl_pct entry_price current_price side),
          some (max (trail_prev trailing_stop_pct)
            (max peak_pnl_pct (compute_pnl_pct entry_price current_price side) -
              config.trail_gap_pct)))) ∧
    (compute_pnl_pct entry_price current_price side < config.trail_start_pct →
      decide_exit entry_price current_price side opened_at now config
          peak_pnl_pct trailing_stop_pct time_to_resolution_minutes bid ask =
        (⟨"HOLD", none, "HOLD"⟩,
          max peak_pnl_pct (compute_pnl_pct entry_price current_price side),
          trailing_stop_pct)) := by
  constructor
  · intro h_start h_trail
    unfold decide_exit
    dsimp only
    rw [if_neg (not_le.mpr h_tp), if_neg (by simp; linarith), if_neg (not_le.mpr h_hold),
      if_neg (not_le.mpr h_late), if_pos h_start, if_pos h_trail]
  · intro h_start
    unfold decide_exit
    dsimp only
    rw [if_neg (not_le.mpr h_tp), if_neg (by simp; linarith), if_neg (not_le.mpr h_hold),
      if_neg (not_le.mpr h_late), if_neg (not_le.mpr h_start)]

/-- C5 witness: the trailing branch fires at a concrete input (PnL 2% with
`trail_start_pct = 2`, peak 5%, previous stop 4%), and is skipped at the
counterexample-style input (PnL 1%). -/
theorem decide_exit_trail_stop_witness :
    decide_exit (1/2) (51/100) "yes" 0 60 default_config.exit 5 (some 4)
        120 (509/1000) (511/1000) =
      (⟨"TRAIL_STOP", some (509/1000), "EXIT_TRAIL"⟩, 5, some 4) := by
  have h := (decide_exit_trail_stop (1/2) (51/100) "yes" 0 60 default_config.exit 5
    (some 4) 120 (509/1000) (511/1000)
    (by norm_num [compute_pnl_pct, default_config])
    (by norm_num [compute_pnl_pct, default_config])
    (by norm_num [default_config])
    (by norm_num [default_config])).1
    (by norm_num [compute_pnl_pct, default_config])
    (by norm_num [compute_pnl_pct, default_config, trail_prev, max_def])
  rw [h]
  norm_num [compute_pnl_pct, default_config, trail_prev, max_def, round4, pyRoundInt]

/-! ## C7 — realized PnL -/

/-- C7: `compute_realized_pnl_pct` on a buy of qty 2 at 0.40 followed by a
sell of qty 2 at 0.50, both on the `yes` side of one market, returns exactly
25.0; and in general each sell fill is matched against at most the
accumulated inventory quantity of its `(market, side)` key, contributing
`compute_pnl_pct(average cost, fill price) × matched` to the weighted sum
(nothing when no quantity matches). -/
theorem compute_realized_pnl_spec :
    compute_realized_pnl_pct
      [⟨some "MKT", some "yes", some "buy", some 2, none, none, some (2/5)⟩,
       ⟨some "MKT", some "yes", some "sell", some 2, none, none, some (1/2)⟩] = 25 ∧
    (∀ (acc : RealizedAcc) (fill : Fill) (q p : ℚ),
      fill.action = some "sell" →
      truthy_str fill.market_id = true →
      truthy_str fill.side = true →
      fill_qty_resolved fill = some q →
      fill.price = some p →
      min (acc.inv (fill.market_id.getD "", fill.side.getD "")).qty q ≤
        (acc.inv (fill.market_id.getD "", fill.side.getD "")).qty ∧
      (process_fill acc fill).realized_weighted =
        acc.realized_weighted +
          (if 0 < min (acc.inv (fill.market_id.getD "", fill.side.getD "")).qty q then
            compute_pnl_pct (acc.inv (fill.market_id.getD "", fill.side.getD "")).avg p
                (fill.side.getD "") *
              min (acc.inv (fill.market_id.getD "", fill.side.getD "")).qty q
          else 0)) := by
  constructor
  · unfold compute_realized_pnl_pct
    simp only [List.foldl]
    rw [process_fill, process_fill]
    simp [truthy_str, fill_qty_resolved, or_falsy]
    norm_num [compute_pnl_pct, round4, pyRoundInt]
  · intro acc fill q p h_action h_mkt h_side h_qty h_price
    refine ⟨min_le_left _ _, ?_⟩
    unfold process_fill
    rw [if_neg (by simp_all [truthy_str])]
    rw [if_neg (by simp [h_action]), if_pos h_action]
    dsimp only
    rw [h_qty, h_price]
    dsimp only [Option.getD_some]
    by_cases hm : 0 < min (acc.inv (fill.market_id.getD "", fill.side.getD "")).qty q
    · rw [if_pos hm, if_pos hm]
      split_ifs <;> rfl
    · rw [if_neg hm, if_neg hm]
      split_ifs <;> simp

/-- C7 witness for the universal part: a sell of qty 5 against an inventory
of qty 3 at average cost 0.40 matches only 3 and contributes `25 × 3`. -/
theorem compute_realized_pnl_spec_witness :
    min (((fun _ => (⟨3, 2/5⟩ : InvEntry)) ("MKT", "yes")).qty : ℚ) 5 ≤
      ((fun _ => (⟨3, 2/5⟩ : InvEntry)) (("MKT", "yes") : String × String)).qty ∧
    (process_fill ⟨fun _ => ⟨3, 2/5⟩, 0, 0⟩
        ⟨some "MKT", some "yes", some "sell", some 5, none, none, some (1/2)⟩).realized_weighted =
      0 + (if (0:ℚ) < min (((fun _ => (⟨3, 2/5⟩ : InvEntry)) ("MKT", "yes")).qty) 5 then
        compute_pnl_pct ((fun _ => (⟨3, 2/5⟩ : InvEntry)) ("MKT", "yes")).avg (1/2) "yes" *
          min (((fun _ => (⟨3, 2/5⟩ : InvEntry)) ("MKT", "yes")).qty) 5
      else 0) :=
  compute_realized_pnl_spec.2 ⟨fun _ => ⟨3, 2/5⟩, 0, 0⟩
    ⟨some "MKT", some "yes", some "sell", some 5, none, none, some (1/2)⟩
    5 (1/2) rfl rfl rfl rfl rfl

/-! ## C1 and C2 — place_with_ttl -/

/-- A configuration with one replacement and order size 1. -/
def ttl_config : BotConfig :=
  { default_config with
    entry := { default_config.entry with max_replacements := 1 } }

/-- A configuration with one replacement and order size 2. -/
def ttl_config2 : BotConfig :=
  { default_config with
    entry := { default_config.entry with max_replacements := 1 }
    trade_sizing := { order_size := 2 } }

/-- Broker of the claimed open-protocol scenario with `max_replacements = 1`:
`open`/no fill on the first attempt, a full fill on the last. -/
def scenario_broker : ℕ → PlaceOrderResponse := fun i =>
  if i = 0 then ⟨some "order-1", some "open", some 0, none⟩
  else ⟨some "order-2", some "filled", some 1, none⟩

/-- A valid quote, as `broker.get_market_snapshot` returns for any demo
market (`broker/paper.py` builds one via `build_quote_from_prices`). -/
def valid_quote : Quote :=
  ⟨"TEST", some (48/100), some (52/100), some (48/100), some (52/100),
    some (1/2), some 8, some 0, true, none⟩

/-- C1 (code-bug evaluation): with `max_replacements = 1` and the broker of
the claim's scenario, `place_with_ttl` behaves as claimed only while no quote
refresh produces a valid quote (one cancellation, then `filled` with the
final order id); the moment a refresh yields a valid quote — which is what
every real broker snapshot produces — the run aborts with `AttributeError`
(`quote.ask` on a `Quote` that only has `yes_ask`) before placing or
cancelling anything. -/
theorem place_with_ttl_attribute_error :
    place_with_ttl ttl_config scenario_broker (fun _ => none) =
      ⟨some ⟨"order-2", "filled", 1, none⟩, ["order-1"], [1]⟩ ∧
    place_with_ttl ttl_config scenario_broker (fun _ => some valid_quote) =
      ⟨none, [], []⟩ := by
  constructor <;> rfl

/-- Broker for the C2 counterexample: a partial fill of 1 (of 2) on the first
attempt, no fill on the last. -/
def partial_fill_broker : ℕ → PlaceOrderResponse := fun i =>
  if i = 0 then ⟨some "order-1", some "open", some 1, none⟩
  else ⟨some "order-2", some "open", some 0, none⟩

/-- C2 counterexample: with order size 2, a partial fill of 1 on the first
attempt and none on the last, the exhausted run logged an accumulated
partial fill of 1 but the returned `OrderResult` reports `filled_qty = 0`
(the final attempt's quantity), not the accumulated total. -/
theorem place_with_ttl_drops_accumulated_fill :
    place_with_ttl ttl_config2 partial_fill_broker (fun _ => none) =
      ⟨some ⟨"order-2", "open", 0, none⟩, ["order-1", "order-2"], [1]⟩ ∧
    (place_with_ttl ttl_config2 partial_fill_broker (fun _ => none)).filled_log.sum = 1 ∧
    ¬ (∃ r, (place_with_ttl ttl_config2 partial_fill_broker (fun _ => none)).result = some r ∧
        r.filled_qty =
          (place_with_ttl ttl_config2 partial_fill_broker (fun _ => none)).filled_log.sum) := by
  refine ⟨rfl, rfl, ?_⟩
  rintro ⟨r, hr, hq⟩
  rw [show (place_with_ttl ttl_config2 partial_fill_broker (fun _ => none)).result =
    some ⟨"order-2", "open", 0, none⟩ from rfl] at hr
  cases hr
  rw [show (place_with_ttl ttl_config2 partial_fill_broker (fun _ => none)).filled_log.sum =
    1 from rfl] at hq
  exact absurd hq (by decide)

/-- Helper for the exhaustion case of the attempt loop: if every refreshed
quote is absent or invalid (so the `quote.ask` attribute error is never
reached) and no attempt drives the remaining quantity to zero, the loop runs
out of attempts and hands back the last attempt's parsed response. -/
theorem place_with_ttl_go_exhausts (broker : ℕ → PlaceOrderResponse)
    (quotes : ℕ → Option Quote)
    (h_q : ∀ i, quote_is_valid (quotes i) = false) :
    ∀ (fuel attempt : ℕ) (remaining : ℤ) (last : OrderResult)
      (cancelled : List String) (filled_log : List ℤ),
      ttl_exhausts broker (fuel + 1) attempt remaining = true →
      (place_with_ttl_go broker quotes (fuel + 1) attempt remaining last cancelled
        filled_log).result =
        some ⟨(broker (attempt + fuel)).order_id.getD "",
          (broker (attempt + fuel)).status.getD "open",
          parsed_filled (broker (attempt + fuel)),
          (broker (attempt + fuel)).avg_fill_price⟩ := by
  intro fuel
  induction fuel with
  | zero =>
    intro attempt remaining last cancelled filled_log h_ex
    rw [place_with_ttl_go, if_neg (by simp [h_q attempt])]
    dsimp only
    simp only [ttl_exhausts] at h_ex
    by_cases hf : parsed_filled (broker attempt) = 0
    · simp [hf, place_with_ttl_go]
    · rw [if_neg hf] at h_ex
      simp only [Bool.and_true, decide_eq_true_eq] at h_ex
      rw [if_pos hf, if_neg h_ex]
      simp [place_with_ttl_go]
  | succ n ih =>
    intro attempt remaining last cancelled filled_log h_ex
    rw [place_with_ttl_go, if_neg (by simp [h_q attempt])]
    dsimp only
    simp only [ttl_exhausts] at h_ex
    have harith : attempt + 1 + n = attempt + (n + 1) := by omega
    by_cases hf : parsed_filled (broker attempt) = 0
    · rw [if_pos hf] at h_ex
      rw [if_neg (by simp [hf]), ← harith]
      exact ih (attempt + 1) remaining _ _ _ h_ex
    · rw [if_neg hf] at h_ex
      rw [Bool.and_eq_true, decide_eq_true_eq] at h_ex
      rw [if_pos hf, if_neg h_ex.1, ← harith]
      exact ih (attempt + 1) _ _ _ _ h_ex.2

/-- C2 (amended): when `place_with_ttl` exhausts all
`max_replacements + 1` attempts without the remaining quantity reaching zero
(and no quote refresh yields a valid quote, which would abort the run), the
`OrderResult` it returns carries the *final attempt's* order id, status and
filled quantity (possibly zero) — not the accumulated partial quantity,
which is only written to the fill log. -/
theorem place_with_ttl_partial_result (config : BotConfig)
    (broker : ℕ → PlaceOrderResponse) (quotes : ℕ → Option Quote)
    (h_q : ∀ i, quote_is_valid (quotes i) = false)
    (h_ex : ttl_exhausts broker (config.entry.max_replacements + 1) 0
      config.trade_sizing.order_size = true) :
    (place_with_ttl config broker quotes).result =
      some ⟨(broker config.entry.max_replacements).order_id.getD "",
        (broker config.entry.max_replacements).status.getD "open",
        parsed_filled (broker config.entry.max_replacements),
        (broker config.entry.max_replacements).avg_fill_price⟩ := by
  have h := place_with_ttl_go_exhausts broker quotes h_q
    config.entry.max_replacements 0 config.trade_sizing.order_size
    ⟨"", "open", 0, none⟩ [] [] h_ex
  simpa [place_with_ttl] using h

/-- C2 witness: the amended theorem applied to the counterexample scenario
(order size 2, a fill of 1 then none) reproduces the concrete run. -/
theorem place_with_ttl_partial_result_witness :
    (place_with_ttl ttl_config2 partial_fill_broker (fun _ => none)).result =
      some ⟨(partial_fill_broker 1).order_id.getD "",
        (partial_fill_broker 1).status.getD "open",
        parsed_filled (partial_fill_broker 1),
        (partial_fill_broker 1).avg_fill_price⟩ :=
  place_with_ttl_partial_result ttl_config2 partial_fill_broker (fun _ => none)
    (fun _ => rfl) (by decide)

/-! ## Rounding and clamping lemmas (market_data invariants) -/

theorem pyRoundInt_nonneg {x : ℚ} (hx : 0 ≤ x) : 0 ≤ pyRoundInt x := by
  have h0 : (0 : ℤ) ≤ ⌊x⌋ := Int.floor_nonneg.mpr hx
  unfold pyRoundInt
  dsimp only
  split_ifs <;> omega

theorem pyRoundInt_le {x : ℚ} {m : ℤ} (hx : x ≤ (m : ℚ)) : pyRoundInt x ≤ m := by
  have hfl : ⌊x⌋ ≤ m := by
    have h := Int.floor_le_floor hx
    simpa using h
  have hx0 : (⌊x⌋ : ℚ) ≤ x := Int.floor_le x
  unfold pyRoundInt
  dsimp only
  split_ifs with h1 h2 h3
  · have hq : ((⌊x⌋ : ℤ) : ℚ) < (m : ℚ) := by linarith
    have hlt : ⌊x⌋ < m := by exact_mod_cast hq
    omega
  · omega
  · omega
  · have heq : x - ⌊x⌋ = 1/2 := le_antisymm (not_lt.mp h1) (not_lt.mp h2)
    have hq : ((⌊x⌋ : ℤ) : ℚ) < (m : ℚ) := by linarith
    have hlt : ⌊x⌋ < m := by exact_mod_cast hq
    omega

theorem pyRoundInt_mono {x y : ℚ} (hxy : x ≤ y) : pyRoundInt x ≤ pyRoundInt y := by
  have hf : ⌊x⌋ ≤ ⌊y⌋ := Int.floor_le_floor hxy
  unfold pyRoundInt
  dsimp only
  rcases eq_or_lt_of_le hf with heq | hlt
  · have heqq : ((⌊x⌋ : ℤ) : ℚ) = ((⌊y⌋ : ℤ) : ℚ) := by exact_mod_cast heq
    split_ifs <;> first | omega | linarith
  · split_ifs <;> omega

theorem round4_nonneg {x : ℚ} (hx : 0 ≤ x) : 0 ≤ round4 x := by
  unfold round4
  have h := pyRoundInt_nonneg (x := x * 10000) (by linarith)
  exact div_nonneg (by exact_mod_cast h) (by norm_num)

theorem round4_le_one {x : ℚ} (hx : x ≤ 1) : round4 x ≤ 1 := by
  unfold round4
  have h := pyRoundInt_le (x := x * 10000) (m := 10000) (by push_cast; linarith)
  rw [div_le_one (by norm_num)]
  exact_mod_cast h

theorem round4_mono {x y : ℚ} (hxy : x ≤ y) : round4 x ≤ round4 y := by
  unfold round4
  have h := pyRoundInt_mono (x := x * 10000) (y := y * 10000) (by linarith)
  have hc : ((pyRoundInt (x * 10000) : ℤ) : ℚ) ≤ ((pyRoundInt (y * 10000) : ℤ) : ℚ) := by
    exact_mod_cast h
  linarith

/-- Every present value lies in [0, 1]. -/
def opt_in_01 (v : Option ℚ) : Prop := ∀ x, v = some x → 0 ≤ x ∧ x ≤ 1

/-- An optional price that is present and outside [0, 1]. -/
def out_of_range (v : Option ℚ) : Prop := ∃ x, v = some x ∧ (x < 0 ∨ 1 < x)

theorem clamp01_fst_in_01 (v : Option ℚ) : opt_in_01 (clamp01 v).1 := by
  intro x hx
  cases v with
  | none => simp [clamp01] at hx
  | some y =>
    by_cases h : y < 0 ∨ y > 1
    · simp only [clamp01, if_pos h, Option.some.injEq] at hx
      subst hx
      refine ⟨le_max_left _ _, max_le (by norm_num) (min_le_left _ _)⟩
    · simp only [clamp01, if_neg h, Option.some.injEq] at hx
      push_neg at h
      subst hx
      exact ⟨h.1, h.2⟩

theorem clamp01_fst_none (v : Option ℚ) : (clamp01 v).1 = none ↔ v = none := by
  cases v with
  | none => simp [clamp01]
  | some y =>
    simp only [clamp01]
    split_ifs <;> simp

theorem clamp01_snd_iff (v : Option ℚ) : (clamp01 v).2 = true ↔ out_of_range v := by
  cases v with
  | none => simp [clamp01, out_of_range]
  | some y =>
    simp only [clamp01, out_of_range]
    split_ifs with h <;> simp_all

theorem opt_map_round4_in_01 (v : Option ℚ) (hv : opt_in_01 v) :
    opt_in_01 (v.map round4) := by
  intro x hx
  cases hm : v with
  | none => rw [hm] at hx; simp at hx
  | some w =>
    rw [hm] at hx
    simp only [Option.map_some', Option.some.injEq] at hx
    obtain ⟨h0, h1⟩ := hv w hm
    exact hx ▸ ⟨round4_nonneg h0, round4_le_one h1⟩

/-- The invariants of `_normalize_quote_values`: all price fields absent or
in [0, 1], and a valid quote carries both sides of a non-inverted book. -/
theorem normalize_quote_values_invariants (t : String)
    (yb ya nb na my : Option ℚ) (ts : Option ℤ) (r : Option String) :
    opt_in_01 (normalize_quote_values t yb ya nb na my ts r).yes_bid ∧
    opt_in_01 (normalize_quote_values t yb ya nb na my ts r).yes_ask ∧
    opt_in_01 (normalize_quote_values t yb ya nb na my ts r).no_bid ∧
    opt_in_01 (normalize_quote_values t yb ya nb na my ts r).no_ask ∧
    opt_in_01 (normalize_quote_values t yb ya nb na my ts r).mid_yes ∧
    ((normalize_quote_values t yb ya nb na my ts r).valid = true →
      ∃ b a, (normalize_quote_values t yb ya nb na my ts r).yes_bid = some b ∧
        (normalize_quote_values t yb ya nb na my ts r).yes_ask = some a ∧ b ≤ a) := by
  unfold normalize_quote_values
  dsimp only
  refine ⟨opt_map_round4_in_01 _ (clamp01_fst_in_01 yb),
    opt_map_round4_in_01 _ (clamp01_fst_in_01 ya),
    opt_map_round4_in_01 _ (clamp01_fst_in_01 nb),
    opt_map_round4_in_01 _ (clamp01_fst_in_01 na), ?_, ?_⟩
  · refine opt_map_round4_in_01 _ ?_
    split
    · next hm hb ha =>
      intro x hx
      simp only [Option.some.injEq] at hx
      obtain ⟨hb0, hb1⟩ := clamp01_fst_in_01 yb _ hb
      obtain ⟨ha0, ha1⟩ := clamp01_fst_in_01 ya _ ha
      constructor <;> (rw [← hx]; linarith)
    · next m _ _ hmm =>
      intro x hx
      exact clamp01_fst_in_01 my x hx
  · intro hval
    rcases hb : (clamp01 yb).1 with _ | b
    · rw [hb] at hval
      simp [List.isEmpty_iff, List.append_eq_nil] at hval
    · rcases ha : (clamp01 ya).1 with _ | a
      · rw [hb, ha] at hval
        simp [List.isEmpty_iff, List.append_eq_nil] at hval
      · by_cases hab : a < b
        · exfalso
          rw [hb, ha] at hval
          simp [hab, List.isEmpty_iff, List.append_eq_nil] at hval
        · exact ⟨round4 b, round4 a, rfl, rfl, round4_mono (not_lt.mp hab)⟩

/-! ## C9 — quote normalisation invariants -/

/-- C9 (amended): every `Quote` returned by `normalize_quote` has all of its
price fields (yes_bid, yes_ask, no_bid, no_ask, mid_yes) either absent or
within [0,1]; any quote with `valid = true` has both `yes_bid` and `yes_ask`
present with `yes_bid ≤ yes_ask`; and an out-of-range input price is clamped
into [0,1] and marks the quote `valid = false` — with reported reason
`"out_of_range"` unless `yes_bid` or `yes_ask` is missing, in which case the
higher-priority reason `"missing_bid_ask"` is reported instead. -/
theorem normalize_quote_invariants :
    (∀ p : Payload,
      opt_in_01 (normalize_quote p).yes_bid ∧
      opt_in_01 (normalize_quote p).yes_ask ∧
      opt_in_01 (normalize_quote p).no_bid ∧
      opt_in_01 (normalize_quote p).no_ask ∧
      opt_in_01 (normalize_quote p).mid_yes ∧
      ((normalize_quote p).valid = true →
        ∃ b a, (normalize_quote p).yes_bid = some b ∧
          (normalize_quote p).yes_ask = some a ∧ b ≤ a)) ∧
    (∀ (t : String) (yb ya nb na my : Option ℚ) (ts : Option ℤ),
      (out_of_range yb ∨ out_of_range ya ∨ out_of_range nb ∨ out_of_range na ∨
        out_of_range my) →
      (normalize_quote_values t yb ya nb na my ts none).valid = false ∧
      (normalize_quote_values t yb ya nb na my ts none).reason_if_invalid =
        some (if yb = none ∨ ya = none then "missing_bid_ask" else "out_of_range")) := by
  constructor
  · intro p
    unfold normalize_quote
    exact normalize_quote_values_invariants _ _ _ _ _ _ _ _
  · intro t yb ya nb na my ts hoor
    have hcl : (clamp01 yb).2 = true ∨ (clamp01 ya).2 = true ∨ (clamp01 nb).2 = true ∨
        (clamp01 na).2 = true ∨ (clamp01 my).2 = true := by
      rcases hoor with h | h | h | h | h
      · exact Or.inl ((clamp01_snd_iff yb).mpr h)
      · exact Or.inr (Or.inl ((clamp01_snd_iff ya).mpr h))
      · exact Or.inr (Or.inr (Or.inl ((clamp01_snd_iff nb).mpr h)))
      · exact Or.inr (Or.inr (Or.inr (Or.inl ((clamp01_snd_iff na).mpr h))))
      · exact Or.inr (Or.inr (Or.inr (Or.inr ((clamp01_snd_iff my).mpr h))))
    unfold normalize_quote_values
    dsimp only
    rw [if_pos hcl]
    constructor
    · split_ifs <;> simp
    · by_cases hbn : yb = none ∨ ya = none
      · have hbn' : (clamp01 yb).1 = none ∨ (clamp01 ya).1 = none := by
          rcases hbn with h | h
          · exact Or.inl ((clamp01_fst_none yb).mpr h)
          · exact Or.inr ((clamp01_fst_none ya).mpr h)
        rw [if_pos hbn', if_pos hbn]
        rfl
      · have hbn' : ¬((clamp01 yb).1 = none ∨ (clamp01 ya).1 = none) := by
          rw [clamp01_fst_none, clamp01_fst_none]
          exact hbn
        rw [if_neg hbn', if_neg hbn]
        rfl

/-- C9 counterexample to the reason clause of the original claim: a payload
whose only price is an out-of-range `no_bid_dollars = 1.5` yields an invalid
quote whose `no_bid` is clamped to 1, but whose reported reason is
`"missing_bid_ask"` (yes_bid/yes_ask absent), not `"out_of_range"`. -/
theorem normalize_quote_reason_counterexample :
    out_of_range ((extract_price [("no_bid_dollars", PValue.num (3/2))]
      ["no_bid_dollars", "no_bid_price_dollars"] ["no_bid", "no_bid_price"]).1) ∧
    (normalize_quote [("no_bid_dollars", PValue.num (3/2))]).valid = false ∧
    (normalize_quote [("no_bid_dollars", PValue.num (3/2))]).reason_if_invalid =
      some "missing_bid_ask" ∧
    (normalize_quote [("no_bid_dollars", PValue.num (3/2))]).no_bid = some 1 ∧
    some "missing_bid_ask" ≠ some "out_of_range" := by
  have h : normalize_quote [("no_bid_dollars", PValue.num (3/2))] =
      normalize_quote_values "" none none (some (3/2)) none none none none := rfl
  refine ⟨⟨3/2, by simp [extract_price, first_present, payload_get], by norm_num⟩,
    ?_, ?_, ?_, by decide⟩ <;>
    rw [h] <;>
    norm_num [normalize_quote_values, clamp01, round4, pyRoundInt, List.isEmpty_iff, List.append_eq_nil]

/-- C9 witness: the amended theorem applied at a concrete out-of-range
`yes_bid = 2` with `yes_ask = 1` present gives an invalid quote whose
reported reason is `"out_of_range"`. -/
theorem normalize_quote_invariants_witness :
    (normalize_quote_values "t" (some 2) (some 1) none none none none none).valid = false ∧
    (normalize_quote_values "t" (some 2) (some 1) none none none none none).reason_if_invalid =
      some "out_of_range" := by
  have h := normalize_quote_invariants.2 "t" (some 2) (some 1) none none none none
    (Or.inl ⟨2, rfl, by norm_num⟩)
  simpa using h

end Knoter
